import Mathlib

/-!
Verification of the MatchScreener normalization, merge and analytics engine.

The definitions below are a shallow embedding of the Python sources:
  * `api/team_map.py` — team alias table;
  * `api/fetch_football_data.py` — `normalize_team_name`, `dedupe_merge`;
  * `api/analytics.py` — `load_dataset`, `_team_matches`, `_last_n`,
    `_pair_rows`, `compute_team_stats`, `compute_h2h`;
  * `src/matchscreener/league_map.py` — `friendly_name_for_div`
    (the module `api/league_map.py` imported by `analytics.py` carries the
    same definitions);
  * `app.py` — the scoreline heuristic of the match-insights endpoint.

Modelling conventions:
  * A pandas `DataFrame` of the merged dataset is a `List Row` in the
    original row order; the merged schema always carries the columns used
    by analytics, with `Option ℚ` cells where the Python float can be NaN
    (`none` plays the role of NaN/None: comparisons with it are `false`,
    and means skip it, as in pandas).
  * `sort_values` is modelled by the stable `List.insertionSort`; pandas
    leaves the order of ties unspecified, and no theorem below depends on
    the order of rows tied under the sort key.
  * Python `float` arithmetic is modelled by exact arithmetic on `ℚ`
    (and `ℝ` where `math.exp` is involved); `round` is Python's
    round-half-to-even on reals.
  * Dict results are association lists `List (String × Val)` with the keys
    in the exact order the Python code builds them.  The env-gated debug
    branch (`INSIGHTS_DEBUG_EXAMPLES`) of `compute_team_stats` is modelled
    with the flag off, its default.
-/

namespace MatchScreener

/-- One row of the merged dataset, with the columns that the merge key and
the analytics functions read.  `none` in a goals column models a NaN cell
(e.g. world-league rows have no half-time data). -/
structure Row where
  Div : String
  date : Int
  home_norm : String
  away_norm : String
  league_norm : String
  FTHG : Option ℚ
  FTAG : Option ℚ
  HTHG : Option ℚ
  HTAG : Option ℚ
deriving DecidableEq

/-! ### Identity normalizer: `api/team_map.py` and `normalize_team_name` -/

/-- `TEAM_ALIASES` from `api/team_map.py`, in source order. -/
def TEAM_ALIASES : List (String × String) :=
  [("lincoln city", "lincoln"),
   ("burton albion", "burton"),
   ("peterborough", "peterboro"),
   ("sheff wed", "sheffield weds"),
   ("sheff utd", "sheffield united"),
   ("bristol rovers", "bristol rvs"),
   ("salford city", "salford"),
   ("man utd", "man united"),
   ("wolverhampton", "wolves"),
   ("usl dunkerque", "dunkerque"),
   ("aris thessaloniki", "aris"),
   ("1 magdeburg", "magdeburg"),
   ("nfc volos", "volos nfc"),
   ("red bull salzburg", "salzburg"),
   ("atromitos athens", "atromitos"),
   ("psg", "paris"),
   ("ac milan", "milan"),
   ("inter milan", "inter")]

/-- Python `str.lower` restricted to the characters the normalizer meets:
ASCII letters and the uppercase forms of the diacritic table's keys. -/
def pyLower (c : Char) : Char :=
  if 'A' ≤ c ∧ c ≤ 'Z' then Char.ofNat (c.toNat + 32)
  else match c with
  | 'Ø' => 'ø' | 'Å' => 'å' | 'Æ' => 'æ' | 'Ö' => 'ö' | 'Ä' => 'ä'
  | 'Ü' => 'ü' | 'É' => 'é' | 'È' => 'è' | 'Ê' => 'ê' | 'Ë' => 'ë'
  | 'Á' => 'á' | 'À' => 'à' | 'Â' => 'â' | 'Ã' => 'ã' | 'Í' => 'í'
  | 'Ì' => 'ì' | 'Î' => 'î' | 'Ï' => 'ï' | 'Ó' => 'ó' | 'Ò' => 'ò'
  | 'Ô' => 'ô' | 'Õ' => 'õ' | 'Ú' => 'ú' | 'Ù' => 'ù' | 'Û' => 'û'
  | 'Ç' => 'ç' | 'Ñ' => 'ñ'
  | _ => c

/-- Python `str.strip`: drop leading and trailing whitespace. -/
def pyStrip (l : List Char) : List Char :=
  ((l.dropWhile Char.isWhitespace).reverse.dropWhile Char.isWhitespace).reverse

/-- The fixed diacritic fold of `normalize_team_name` (first replace table).
Each pattern is a single character and no output contains a pattern, so the
chain of `str.replace` calls equals one simultaneous character map. -/
def foldSpecial (c : Char) : List Char :=
  match c with
  | 'ø' => ['o'] | 'å' => ['a'] | 'æ' => ['a', 'e'] | 'ö' => ['o']
  | 'ä' => ['a'] | 'ü' => ['u'] | 'é' => ['e'] | 'è' => ['e']
  | 'ê' => ['e'] | 'ë' => ['e'] | 'á' => ['a'] | 'à' => ['a']
  | 'â' => ['a'] | 'ã' => ['a'] | 'í' => ['i'] | 'ì' => ['i']
  | 'î' => ['i'] | 'ï' => ['i'] | 'ó' => ['o'] | 'ò' => ['o']
  | 'ô' => ['o'] | 'õ' => ['o'] | 'ú' => ['u'] | 'ù' => ['u']
  | 'û' => ['u'] | 'ç' => ['c'] | 'ñ' => ['n']
  | _ => [c]

/-- The punctuation substitutions of `normalize_team_name` (second replace
table): `&`→"and", `-` and `/`→space, apostrophe and period removed. -/
def substPunct (c : Char) : List Char :=
  match c with
  | '&' => ['a', 'n', 'd']
  | '-' => [' ']
  | '/' => [' ']
  | '\'' => []
  | '.' => []
  | _ => [c]

/-- Python `str.split()` with no argument: split on runs of whitespace,
producing no empty words. -/
def pySplit (l : List Char) : List (List Char) :=
  let p := l.foldr
    (fun c (p : List Char × List (List Char)) =>
      if c.isWhitespace then (if p.1.isEmpty then p else ([], p.1 :: p.2))
      else (c :: p.1, p.2))
    ([], [])
  if p.1.isEmpty then p.2 else p.1 :: p.2

/-- `apply_team_alias` from `api/team_map.py`: strip + lowercase the key and
look it up in `TEAM_ALIASES`, defaulting to the key itself. -/
def apply_team_alias (norm_name : String) : String :=
  let key := String.mk (pyStrip (norm_name.toList.map pyLower))
  ((TEAM_ALIASES.find? (fun p => p.1 == key)).map Prod.snd).getD key

/-- The club-suffix tokens dropped by `normalize_team_name`. -/
def suffixTokens : List String := ["fc", "cf", "sc", "afc", "c.f."]

/-- `normalize_team_name` from `api/fetch_football_data.py`: lowercase,
strip, diacritic fold, punctuation substitution, tokenize, drop suffix
tokens, rejoin, alias lookup. -/
def normalize_team_name (name : String) : String :=
  let s := pyStrip (name.toList.map pyLower)
  let s := (s.map foldSpecial).flatten
  let s := (s.map substPunct).flatten
  let ws := (pySplit s).map String.mk
  let filtered := ws.filter (fun w => !(suffixTokens.contains w))
  apply_team_alias (" ".intercalate filtered)

/-! ### Multi-source merger: `dedupe_merge` from `api/fetch_football_data.py` -/

/-- The `_src` tag column added by `dedupe_merge` before sorting. -/
inductive Src where
  | base
  | overlay
deriving DecidableEq

/-- Sort rank of the `_src` tag: the strings "base" < "overlay". -/
def srcRank : Src → Nat
  | .base => 0
  | .overlay => 1

/-- A dataset row together with its `_src` tag. -/
abbrev TRow := Row × Src

/-- The duplicate key of `dedupe_merge`:
`["date", "home_norm", "away_norm", "league_norm"]`. -/
def mergeKey (r : Row) : Int × String × String × String :=
  (r.date, r.home_norm, r.away_norm, r.league_norm)

/-- The row order of `combined.sort_values(by=["date", "_src"],
ascending=[True, True])`: by date, ties by source tag. -/
def mergeLe (a b : TRow) : Prop :=
  a.1.date < b.1.date ∨ (a.1.date = b.1.date ∧ srcRank a.2 ≤ srcRank b.2)

instance : DecidableRel mergeLe := fun a b => by
  unfold mergeLe; infer_instance

instance : IsTotal TRow mergeLe := by
  constructor
  intro a b
  rcases lt_trichotomy a.1.date b.1.date with h | h | h
  · exact Or.inl (Or.inl h)
  · rcases Nat.le_total (srcRank a.2) (srcRank b.2) with hs | hs
    · exact Or.inl (Or.inr ⟨h, hs⟩)
    · exact Or.inr (Or.inr ⟨h.symm, hs⟩)
  · exact Or.inr (Or.inl h)

instance : IsTrans TRow mergeLe := by
  constructor
  rintro a b c (hab | ⟨hab, hab'⟩) (hbc | ⟨hbc, hbc'⟩)
  · exact Or.inl (hab.trans hbc)
  · exact Or.inl (hbc ▸ hab)
  · exact Or.inl (hab ▸ hbc)
  · exact Or.inr ⟨hab.trans hbc, hab'.trans hbc'⟩

/-- Key equality between two tagged rows, as tested by `drop_duplicates`. -/
def sameMergeKey (a b : TRow) : Bool := decide (mergeKey a.1 = mergeKey b.1)

/-- pandas `drop_duplicates(subset=key_cols, keep="last")`: a row is kept
iff no later row shares its key; kept rows stay in order. -/
def keepLastDup : List TRow → List TRow
  | [] => []
  | x :: xs => if xs.any (fun y => sameMergeKey x y) then keepLastDup xs else x :: keepLastDup xs

/-- `dedupe_merge` from `api/fetch_football_data.py`: tag each side with its
source, concatenate, sort by (date, source tag), drop duplicate keys keeping
the last occurrence, and drop the tag column. -/
def dedupe_merge (base overlay : List Row) : List Row :=
  let combined := base.map (fun r => (r, Src.base)) ++ overlay.map (fun r => (r, Src.overlay))
  let sorted := List.insertionSort mergeLe combined
  (keepLastDup sorted).map Prod.fst

/-! ### League map: `friendly_name_for_div` (league_map.py) -/

/-- `SLUG_TO_DIV` from `league_map.py`, in source order. -/
def SLUG_TO_DIV : List (String × String) :=
  [("england-premier-league", "E0"),
   ("england-championship", "E1"),
   ("england-league-1", "E2"),
   ("england-league-2", "E3"),
   ("england-national-league", "E4"),
   ("scotland-premiership", "SC0"),
   ("scotland-championship", "SC1"),
   ("scotland-league-one", "SC2"),
   ("scotland-league-two", "SC3"),
   ("germany-bundesliga", "D1"),
   ("germany-2-bundesliga", "D2"),
   ("italy-serie-a", "I1"),
   ("italy-serie-b", "I2"),
   ("spain-la-liga", "SP1"),
   ("spain-la-liga-2", "SP2"),
   ("france-ligue-1", "F1"),
   ("france-ligue-2", "F2"),
   ("netherlands-eredivisie", "N1"),
   ("belgium-first-division-a", "B1"),
   ("portugal-primeira-liga", "P1"),
   ("turkey-super-lig", "T1"),
   ("greece-super-league", "G1")]

/-- Python `str.title()` on a hyphen-free slug: capitalize the first letter
of each space-separated word. -/
def titleWords (s : String) : String :=
  " ".intercalate ((s.splitOn " ").map (fun w =>
    match w.toList with
    | [] => ""
    | c :: cs => String.mk (c.toUpper :: cs)))

/-- `friendly_name_for_div` from `league_map.py`: falsy code → None; else
prettify the first slug mapping to the code, defaulting to the code. -/
def friendly_name_for_div (div_code : Option String) : Option String :=
  match div_code with
  | none => none
  | some d =>
    if d = "" then none
    else
      match SLUG_TO_DIV.find? (fun p => p.2 == d) with
      | some p => some (titleWords ((p.1.toList.map (fun c => if c = '-' then ' ' else c)).asString))
      | none => some d

/-! ### Analytics: `api/analytics.py` -/

/-- A JSON-ish dict value of the analytics result dicts.  `vNone` is Python
`None`; `vNan` is a float NaN (e.g. `float(gf.mean())` of an all-NaN
series). -/
inductive Val where
  | vInt : Int → Val
  | vRat : ℚ → Val
  | vStr : String → Val
  | vNone : Val
  | vNan : Val
deriving DecidableEq

/-- Embed an optional float (NaN as `none`) as a dict value. -/
def vFloat : Option ℚ → Val
  | some q => .vRat q
  | none => .vNan

/-- Embed an optional string (None as `none`) as a dict value. -/
def vOptStr : Option String → Val
  | some s => .vStr s
  | none => .vNone

/-- Embed `Optional[float]` (None as `none`) as a dict value. -/
def vOptRat : Option ℚ → Val
  | some q => .vRat q
  | none => .vNone

/-- pandas `a + b` on possibly-NaN cells. -/
def optAdd : Option ℚ → Option ℚ → Option ℚ
  | some a, some b => some (a + b)
  | _, _ => none

/-- pandas `a - b` on possibly-NaN cells. -/
def optSub : Option ℚ → Option ℚ → Option ℚ
  | some a, some b => some (a - b)
  | _, _ => none

/-- pandas `a > b` on possibly-NaN cells: comparisons with NaN are False. -/
def optGt : Option ℚ → Option ℚ → Bool
  | some a, some b => decide (a > b)
  | _, _ => false

/-- pandas `a == b` on possibly-NaN cells: NaN equals nothing. -/
def optEq : Option ℚ → Option ℚ → Bool
  | some a, some b => decide (a = b)
  | _, _ => false

/-- pandas `a >= c` against a constant, False on NaN. -/
def optGe (a : Option ℚ) (c : ℚ) : Bool :=
  match a with
  | some x => decide (x ≥ c)
  | none => false

/-- pandas `Series.mean()` with default `skipna=True`: NaN (`none`) when no
value remains. -/
def seriesMean (l : List (Option ℚ)) : Option ℚ :=
  let vals := l.filterMap id
  if vals.isEmpty then none else some (vals.sum / (vals.length : ℚ))

/-- pandas `Series.sum()` with default `skipna=True` (empty sum is 0). -/
def seriesSum (l : List (Option ℚ)) : ℚ :=
  (l.filterMap id).sum

/-- The exact-duplicate key of `_team_matches`'s `drop_duplicates`:
`["Div", "date", "home_norm", "away_norm", "FTHG", "FTAG"]`. -/
def rowDupKey (r : Row) : String × Int × String × String × Option ℚ × Option ℚ :=
  (r.Div, r.date, r.home_norm, r.away_norm, r.FTHG, r.FTAG)

/-- pandas `drop_duplicates(subset=..., keep="first")`: keep a row iff no
earlier row shares its key, tracking the set of keys already seen. -/
def keepFirstAux (seen : List (String × Int × String × String × Option ℚ × Option ℚ)) :
    List Row → List Row
  | [] => []
  | x :: xs =>
    if rowDupKey x ∈ seen then keepFirstAux seen xs
    else x :: keepFirstAux (rowDupKey x :: seen) xs

/-- pandas `drop_duplicates(subset=..., keep="first")` over the whole
frame. -/
def keepFirstDup (l : List Row) : List Row := keepFirstAux [] l

/-- The row order of `sub.sort_values("date", ascending=False)`. -/
def dateDescLe (a b : Row) : Prop := b.date ≤ a.date

instance : DecidableRel dateDescLe := fun a b => by
  unfold dateDescLe; infer_instance

instance : IsTotal Row dateDescLe :=
  ⟨fun a b => (Int.le_total b.date a.date).imp id id⟩

instance : IsTrans Row dateDescLe :=
  ⟨fun _ _ _ hab hbc => le_trans hbc hab⟩

/-- `_team_matches` from `api/analytics.py`: rows where the team appears
home or away, optional league filter (a falsy `div_code`, `None` or the
empty string, filters nothing), exact-duplicate drop keeping the first
occurrence, then sort descending by date. -/
def _team_matches (df : List Row) (team_norm : String) (div_code : Option String) : List Row :=
  let sub := df.filter (fun r => r.home_norm == team_norm || r.away_norm == team_norm)
  let sub := match div_code with
    | some d => if d = "" then sub else sub.filter (fun r => r.Div == d)
    | none => sub
  List.insertionSort dateDescLe (keepFirstDup sub)

/-- The Python default of `_last_n`'s window parameter (`n = 80`).  Note
that every caller of `_last_n` in the repository passes `n` explicitly, so
this default is never exercised. -/
def LAST_N_DEFAULT : Option Int := some 80

/-- `_last_n` from `api/analytics.py`: `None` or a non-positive int means
no limit, otherwise keep the first `n` rows. -/
def _last_n (sub : List Row) (n : Option Int) : List Row :=
  if sub.isEmpty then sub
  else
    match n with
    | none => sub
    | some m => if m ≤ 0 then sub else sub.take m.toNat

/-- `_pair_rows` from `api/analytics.py`: rows where the two teams faced
each other in either orientation. -/
def _pair_rows (df : List Row) (home_norm away_norm : String) : List Row :=
  df.filter (fun r =>
    (r.home_norm == home_norm && r.away_norm == away_norm) ||
    (r.home_norm == away_norm && r.away_norm == home_norm))

/-- The row selection of `compute_team_stats`:
`_last_n(_team_matches(df, team_norm, div_code), max_matches)`. -/
def teamStatsSelection (df : List Row) (team_norm : String) (div_code : Option String)
    (max_matches : Option Int) : List Row :=
  _last_n (_team_matches df team_norm div_code) max_matches

/-- `compute_team_stats` from `api/analytics.py`, with the env-gated debug
branch off (its default).  Keys appear in the exact order the Python dict
builds them. -/
def compute_team_stats (df : List Row) (team_norm : String) (div_code : Option String)
    (max_matches : Option Int) : List (String × Val) :=
  let sub := teamStatsSelection df team_norm div_code max_matches
  if sub.isEmpty then
    [("team_norm", .vStr team_norm),
     ("n", .vInt 0),
     ("league_div", vOptStr div_code),
     ("league_name", vOptStr (friendly_name_for_div div_code)),
     ("avg_goals_scored", .vNone),
     ("avg_goals_conceded", .vNone),
     ("wins_count", .vInt 0), ("wins_pct", .vNone),
     ("wins_others_count", .vInt 0), ("wins_others_pct", .vNone),
     ("draws_count", .vInt 0), ("draws_pct", .vNone),
     ("draws_others_count", .vInt 0), ("draws_others_pct", .vNone),
     ("losses_count", .vInt 0), ("losses_pct", .vNone),
     ("losses_others_count", .vInt 0), ("losses_others_pct", .vNone),
     ("home_ht_2plus_count", .vInt 0), ("home_ht_2plus_pct", .vNone),
     ("away_ht_2plus_count", .vInt 0), ("away_ht_2plus_pct", .vNone)]
  else
    let isHome : Row → Bool := fun r => r.home_norm == team_norm
    let gf : Row → Option ℚ := fun r => if isHome r then r.FTHG else r.FTAG
    let ga : Row → Option ℚ := fun r => if isHome r then r.FTAG else r.FTHG
    -- The merged schema always carries the HTHG/HTAG columns, so the
    -- `sub.get("HTHG") is not None` branch is always taken; world-league
    -- rows hold NaN there.
    let gfht : Row → Option ℚ := fun r => if isHome r then r.HTHG else r.HTAG
    let gaht : Row → Option ℚ := fun r => if isHome r then r.HTAG else r.HTHG
    let gf2h : Row → Option ℚ := fun r => (optSub (gf r) (gfht r)).map (fun x => max x 0)
    let total_gf := seriesSum (sub.map gf)
    let share_gf_2h : Option ℚ :=
      if total_gf > 0 then some (seriesSum (sub.map gf2h) / total_gf) else none
    let winsMask : Row → Bool := fun r => optGt (gf r) (ga r)
    let drawsMask : Row → Bool := fun r => optEq (gf r) (ga r)
    let lossesMask : Row → Bool := fun r => optGt (ga r) (gf r)
    let n : ℚ := (sub.length : ℚ)
    let pct : Nat → Val := fun c => if n > 0 then .vRat ((c : ℚ) / n) else .vNone
    let wins_count := sub.countP winsMask
    let draws_count := sub.countP drawsMask
    let losses_count := sub.countP lossesMask
    let winsOthersMask : Row → Bool := fun r => winsMask r && optGe (gf r) 4
    let drawsOthersMask : Row → Bool := fun r => drawsMask r && optGe (gf r) 4 && optGe (ga r) 4
    let lossesOthersMask : Row → Bool := fun r => lossesMask r && optGe (ga r) 4
    let wins_others_count := sub.countP winsOthersMask
    let draws_others_count := sub.countP drawsOthersMask
    let losses_others_count := sub.countP lossesOthersMask
    let nHome := sub.countP isHome
    let nAway := sub.countP (fun r => !(isHome r))
    let condPct : Nat → Nat → Val := fun num den => if den > 0 then .vRat ((num : ℚ) / (den : ℚ)) else .vNone
    [("team_norm", .vStr team_norm),
     ("n", .vInt (sub.length : Int)),
     ("avg_goals_scored", vFloat (seriesMean (sub.map gf))),
     ("avg_goals_conceded", vFloat (seriesMean (sub.map ga))),
     ("over_0_5_rate", .vRat ((sub.countP (fun r => optGe (optAdd r.FTHG r.FTAG) 1) : ℚ) / n)),
     ("clean_sheet_rate", .vRat ((sub.countP (fun r => optEq (ga r) (some 0)) : ℚ) / n)),
     ("goals_share_second_half", vOptRat share_gf_2h),
     ("league_div", vOptStr div_code),
     ("league_name", vOptStr (friendly_name_for_div div_code)),
     ("wins_count", .vInt (wins_count : Int)), ("wins_pct", pct wins_count),
     ("wins_others_count", .vInt (wins_others_count : Int)), ("wins_others_pct", pct wins_others_count),
     ("draws_count", .vInt (draws_count : Int)), ("draws_pct", pct draws_count),
     ("draws_others_count", .vInt (draws_others_count : Int)), ("draws_others_pct", pct draws_others_count),
     ("losses_count", .vInt (losses_count : Int)), ("losses_pct", pct losses_count),
     ("losses_others_count", .vInt (losses_others_count : Int)), ("losses_others_pct", pct losses_others_count),
     ("home_ht_2plus_count", .vInt (sub.countP (fun r => isHome r && optGe (gfht r) 2) : Int)),
     ("home_ht_2plus_pct", condPct (sub.countP (fun r => isHome r && optGe (gfht r) 2)) nHome),
     ("away_ht_2plus_count", .vInt (sub.countP (fun r => !(isHome r) && optGe (gfht r) 2) : Int)),
     ("away_ht_2plus_pct", condPct (sub.countP (fun r => !(isHome r) && optGe (gfht r) 2)) nAway),
     ("home_ht_2plus_conceded_count", .vInt (sub.countP (fun r => isHome r && optGe (gaht r) 2) : Int)),
     ("home_ht_2plus_conceded_pct", condPct (sub.countP (fun r => isHome r && optGe (gaht r) 2)) nHome),
     ("away_ht_2plus_conceded_count", .vInt (sub.countP (fun r => !(isHome r) && optGe (gaht r) 2) : Int)),
     ("away_ht_2plus_conceded_pct", condPct (sub.countP (fun r => !(isHome r) && optGe (gaht r) 2)) nAway),
     ("ht_2plus_to_win_others_pct",
       condPct (sub.countP (fun r => optGe (gfht r) 2 && winsOthersMask r)) (sub.countP (fun r => optGe (gfht r) 2))),
     ("ht_2plus_conceded_to_lost_others_pct",
       condPct (sub.countP (fun r => optGe (gaht r) 2 && lossesOthersMask r)) (sub.countP (fun r => optGe (gaht r) 2))),
     ("home_ht_2plus_conceded_to_lost_others_pct",
       condPct (sub.countP (fun r => isHome r && optGe (gaht r) 2 && lossesOthersMask r))
         (sub.countP (fun r => isHome r && optGe (gaht r) 2))),
     ("away_ht_2plus_conceded_to_lost_others_pct",
       condPct (sub.countP (fun r => !(isHome r) && optGe (gaht r) 2 && lossesOthersMask r))
         (sub.countP (fun r => !(isHome r) && optGe (gaht r) 2)))]

/-- The row selection of `compute_h2h`: pair rows, sorted descending by
date, truncated only when `max_matches` is an int greater than 0. -/
def h2hSelection (df : List Row) (home_norm away_norm : String) (max_matches : Option Int) : List Row :=
  let sub := List.insertionSort dateDescLe (_pair_rows df home_norm away_norm)
  match max_matches with
  | some m => if m > 0 then sub.take m.toNat else sub
  | none => sub

/-- `compute_h2h` from `api/analytics.py`. -/
def compute_h2h (df : List Row) (home_norm away_norm : String) (max_matches : Option Int) :
    List (String × Val) :=
  let sub := h2hSelection df home_norm away_norm max_matches
  if sub.isEmpty then [("n", .vInt 0)]
  else
    let tg : Row → Option ℚ := fun r => optAdd r.FTHG r.FTAG
    let zero_zero := sub.countP (fun r => optEq (tg r) (some 0))
    [("n", .vInt (sub.length : Int)),
     ("zero_zero_rate", .vRat ((zero_zero : ℚ) / (sub.length : ℚ))),
     ("over_0_5_rate", .vRat (1 - (zero_zero : ℚ) / (sub.length : ℚ))),
     ("avg_total_goals", vFloat (seriesMean (sub.map tg)))]

/-- Read an int field out of an analytics result dict (0 if absent or not
an int). -/
def getInt (out : List (String × Val)) (key : String) : Int :=
  match out.lookup key with
  | some (.vInt i) => i
  | _ => 0

/-- The key list of an analytics result dict. -/
def dictKeys (out : List (String × Val)) : List String := out.map Prod.fst

/-! ### Dataset cache: `load_dataset` from `api/analytics.py` -/

/-- The state of the backing Parquet store at `data_path`:
`none` — the file is missing (`os.stat` raises `FileNotFoundError`);
`some (mtime, none)` — the file exists but `pd.read_parquet` raises
(unreadable or unparseable); `some (mtime, some df)` — it parses to `df`. -/
def Store := Option (Int × Option (List Row))

/-- The module-level `DatasetCache` dataclass (`df`, `mtime`). -/
structure DatasetCache where
  df : Option (List Row)
  mtime : Option Int
deriving DecidableEq

/-- `load_dataset` from `api/analytics.py`, with the ambient `_DATASET`
cache made an explicit argument and the resulting cache state returned:
missing file → empty frame; cached frame returned when the modification
time is unchanged; otherwise reload, returning an empty frame (cache
untouched) on a parse failure and the fresh frame (cache replaced)
otherwise. -/
def load_dataset (store : Store) (cache : DatasetCache) : List Row × DatasetCache :=
  match store with
  | none => ([], cache)
  | some (mtime, content) =>
    match cache.df with
    | some df =>
      if cache.mtime = some mtime then (df, cache)
      else
        match content with
        | none => ([], cache)
        | some fresh => (fresh, ⟨some fresh, some mtime⟩)
    | none =>
      match content with
      | none => ([], cache)
      | some fresh => (fresh, ⟨some fresh, some mtime⟩)

/-- A cache state is consistent with the store when any cached frame whose
recorded modification time still matches the store was actually read from
it: the store parses, to that frame.  `load_dataset` only ever produces
such states (it records `mtime` and `df` together from a successful
parse). -/
def CacheConsistent (store : Store) (cache : DatasetCache) : Prop :=
  ∀ df mt, cache.df = some df → cache.mtime = some mt →
    ∀ content, store = some (mt, content) → content = some df

/-! ### Scoreline heuristic: `app.py`, `/api/analytics/match-insights` -/

/-- A Python value in the heuristic's average slots after the `float()`
coercions of `app.py`: `None` (the key was absent or the coercion raised),
a float NaN (e.g. the mean of an all-NaN series), or a finite float
modelled exactly. -/
inductive PyVal where
  | vnone : PyVal
  | vnan : PyVal
  | vnum : ℚ → PyVal
deriving DecidableEq

/-- Embed an absent-or-finite value (no NaN) as a `PyVal`. -/
def pyOfOpt : Option ℚ → PyVal
  | none => .vnone
  | some x => .vnum x

/-- The float fragment of a `PyVal`, with `none` standing for NaN (and for
the `None` case, which the callers below rule out before arithmetic). -/
def PyVal.toFloat : PyVal → Option ℚ
  | .vnum a => some a
  | _ => none

/-- Python's `min(a, b)` on a possibly-NaN first argument: `b < a` is
False for NaN `a`, so `min` keeps the NaN. -/
def pyMin (a : Option ℚ) (b : ℚ) : Option ℚ :=
  match a with
  | some x => some (min x b)
  | none => none

/-- Python's `max(a, b)` on a possibly-NaN second argument: `b > a` is
False for NaN `b`, so `max` keeps its first argument. -/
def pyMax (a : ℚ) (b : Option ℚ) : ℚ :=
  match b with
  | some x => max a x
  | none => a

/-- `_clamp_goals` from `app.py`: a finite average is clamped to
`[0.2, 3.0]`; `None` (coercion failure) and NaN (caught by `pd.isna`)
both yield `None`. -/
def clampGoals : PyVal → Option ℚ
  | .vnum f => some (max (1/5) (min f 3))
  | _ => none

/-- The λ blend of the insights score in `app.py` (lines 491–503), as a
function of the two goal-average inputs, the first league block's
`avg_total_goals` and the H2H `avg_total_goals`:
`comp_sum` is the clamped sum of goal averages, falling back to
`league_avg` when it is not `None`; `ctx_avg` is `h2h_avg` if not `None`,
else `league_avg`; `lam = 0.6*comp_sum + 0.2*(league_avg or comp_sum) +
0.2*(ctx_avg or league_avg or comp_sum)`, then `max(0.2, min(lam, 5.0))`.
Only the goal averages are NaN-guarded (`_clamp_goals`): a NaN
`league_avg` or `h2h_avg` passes the `is not None` tests, propagates
through the blend, and the Python clamp collapses the NaN `lam` to 0.2.
`none` means no score is produced. -/
def blendLambda (home_g away_g league_avg h2h_avg : PyVal) : Option ℚ :=
  let hg := clampGoals home_g
  let ag := clampGoals away_g
  let comp0 : Option ℚ :=
    match hg, ag with
    | some h, some a => some (h + a)
    | _, _ => none
  let comp_sum : PyVal :=
    match comp0 with
    | some c => .vnum c
    | none => league_avg
  let ctx_avg : PyVal := if h2h_avg ≠ .vnone then h2h_avg else league_avg
  match comp_sum with
  | .vnone => none
  | cs =>
    let c : Option ℚ := cs.toFloat
    let lterm : Option ℚ := (if league_avg ≠ .vnone then league_avg else cs).toFloat
    let hterm : Option ℚ :=
      (if ctx_avg ≠ .vnone then ctx_avg
       else if league_avg ≠ .vnone then league_avg else cs).toFloat
    let lam0 : Option ℚ :=
      optAdd (optAdd (c.map (fun x => (6/10) * x)) (lterm.map (fun x => (2/10) * x)))
        (hterm.map (fun x => (2/10) * x))
    some (pyMax (1/5) (pyMin lam0 5))

/-- Python's `round` to an integer: round half to even. -/
noncomputable def pyRound (x : ℝ) : ℤ :=
  if 2 * x = ((2 * ⌊x⌋ + 1 : ℤ) : ℝ) then
    (if Even ⌊x⌋ then ⌊x⌋ else ⌊x⌋ + 1)
  else ⌊x + 1/2⌋

/-- The interest score of `app.py` for a given λ:
`P(0–0) = exp(-lam)`, `score = clamp(round(100 - 200*P), 0, 100)`. -/
noncomputable def scoreFromLambda (lam : ℚ) : ℤ :=
  max 0 (min (pyRound (100 - 200 * Real.exp (-(lam : ℝ)))) 100)

/-- Modelled from the spec's words (§4.7), for comparison with
`blendLambda`: λ = 0.6·(g_home+g_away) + 0.2·league_avg + 0.2·h2h_avg with
g_home, g_away clamped to [0.2, 3.0], h2h_avg falling back to league_avg,
each missing league/H2H term substituted by the clamped (g_home+g_away),
and λ clamped to [0.2, 5.0]. -/
def specLambda (g_home g_away : ℚ) (league_avg h2h_avg : Option ℚ) : ℚ :=
  let gh := max (1/5) (min g_home 3)
  let ga := max (1/5) (min g_away 3)
  let s := gh + ga
  let l := league_avg.getD s
  let h := (h2h_avg.or league_avg).getD s
  min 5 (max (1/5) ((6/10) * s + (2/10) * l + (2/10) * h))

/-! ### Named projections and concrete data used by the theorems -/

/-- Goals-for from the team's perspective (`gf` in `compute_team_stats`). -/
def gfOf (t : String) (r : Row) : Option ℚ := if r.home_norm == t then r.FTHG else r.FTAG

/-- Goals-against from the team's perspective (`ga` in
`compute_team_stats`). -/
def gaOf (t : String) (r : Row) : Option ℚ := if r.home_norm == t then r.FTAG else r.FTHG

/-- The key list of `compute_team_stats`'s empty-window default record. -/
def teamStatsEmptyKeys : List String :=
  ["team_norm", "n", "league_div", "league_name", "avg_goals_scored", "avg_goals_conceded",
   "wins_count", "wins_pct", "wins_others_count", "wins_others_pct",
   "draws_count", "draws_pct", "draws_others_count", "draws_others_pct",
   "losses_count", "losses_pct", "losses_others_count", "losses_others_pct",
   "home_ht_2plus_count", "home_ht_2plus_pct", "away_ht_2plus_count", "away_ht_2plus_pct"]

/-- The key list of `compute_team_stats`'s non-empty record (debug
examples off). -/
def teamStatsFullKeys : List String :=
  ["team_norm", "n", "avg_goals_scored", "avg_goals_conceded", "over_0_5_rate",
   "clean_sheet_rate", "goals_share_second_half", "league_div", "league_name",
   "wins_count", "wins_pct", "wins_others_count", "wins_others_pct",
   "draws_count", "draws_pct", "draws_others_count", "draws_others_pct",
   "losses_count", "losses_pct", "losses_others_count", "losses_others_pct",
   "home_ht_2plus_count", "home_ht_2plus_pct", "away_ht_2plus_count", "away_ht_2plus_pct",
   "home_ht_2plus_conceded_count", "home_ht_2plus_conceded_pct",
   "away_ht_2plus_conceded_count", "away_ht_2plus_conceded_pct",
   "ht_2plus_to_win_others_pct", "ht_2plus_conceded_to_lost_others_pct",
   "home_ht_2plus_conceded_to_lost_others_pct", "away_ht_2plus_conceded_to_lost_others_pct"]

/-- A materialized row whose full-time home goals cell is NaN (e.g. an
unplayed fixture row from a season sheet: only date and team names are
required by the ingest filter). -/
def rowNaNGoals : Row := ⟨"E0", 0, "alpha", "beta", "e0", none, some 1, none, none⟩

/-- A dataset with 81 matches of one team, dates descending. -/
def df81 : List Row :=
  (List.range 81).map (fun i =>
    ⟨"E0", (80 - (i : Int)), "alpha", "beta", "e0", some 1, some 0, none, none⟩)

/-! ## Helper lemmas -/

lemma _last_n_none (sub : List Row) : _last_n sub none = sub := by
  unfold _last_n
  by_cases h : sub.isEmpty
  · rw [if_pos h]
  · rw [if_neg h]

lemma _last_n_nonpos (sub : List Row) (n : Int) (hn : n ≤ 0) : _last_n sub (some n) = sub := by
  unfold _last_n
  by_cases h : sub.isEmpty
  · rw [if_pos h]
  · rw [if_neg h]
    simp only
    rw [if_pos hn]

lemma _last_n_pos (sub : List Row) (n : Int) (hn : 0 < n) :
    _last_n sub (some n) = sub.take n.toNat := by
  unfold _last_n
  by_cases h : sub.isEmpty
  · rw [if_pos h, List.isEmpty_iff.mp h, List.take_nil]
  · rw [if_neg h]
    simp only
    rw [if_neg (by omega)]

lemma getInt_n (df : List Row) (t : String) (d : Option String) (mm : Option Int) :
    getInt (compute_team_stats df t d mm) "n" = ((teamStatsSelection df t d mm).length : Int) := by
  by_cases h : (teamStatsSelection df t d mm).isEmpty
  · simp only [compute_team_stats, getInt]
    rw [if_pos h, List.isEmpty_iff.mp h]
    rfl
  · simp only [compute_team_stats, getInt]
    rw [if_neg h]
    rfl

lemma keepFirstAux_subset (seen : List (String × Int × String × String × Option ℚ × Option ℚ))
    (l : List Row) : keepFirstAux seen l ⊆ l := by
  induction l generalizing seen with
  | nil => exact fun r h => h
  | cons x xs ih =>
    intro r hr
    rw [keepFirstAux] at hr
    by_cases hx : rowDupKey x ∈ seen
    · rw [if_pos hx] at hr
      exact List.mem_cons_of_mem x (ih seen hr)
    · rw [if_neg hx] at hr
      rcases hr with _ | hr
      · exact List.mem_cons_self x xs
      · exact List.mem_cons_of_mem x (ih _ (by assumption))

lemma keepFirstDup_subset (l : List Row) : keepFirstDup l ⊆ l :=
  keepFirstAux_subset [] l

lemma team_matches_subset (df : List Row) (t : String) (d : Option String) :
    _team_matches df t d ⊆ df := by
  rcases d with _ | s
  · unfold _team_matches
    intro r hr
    have hr2 := (List.perm_insertionSort dateDescLe _).mem_iff.mp hr
    exact List.mem_of_mem_filter (keepFirstDup_subset _ hr2)
  · unfold _team_matches
    intro r hr
    have hr2 := (List.perm_insertionSort dateDescLe _).mem_iff.mp hr
    have hr3 := keepFirstDup_subset _ hr2
    simp only at hr3
    by_cases hs : s = ""
    · rw [if_pos hs] at hr3
      exact List.mem_of_mem_filter hr3
    · rw [if_neg hs] at hr3
      exact List.mem_of_mem_filter (List.mem_of_mem_filter hr3)

lemma teamStatsSelection_subset (df : List Row) (t : String) (d : Option String) (mm : Option Int) :
    teamStatsSelection df t d mm ⊆ df := by
  unfold teamStatsSelection _last_n
  by_cases he : (_team_matches df t d).isEmpty
  · rw [if_pos he]
    exact team_matches_subset df t d
  · rw [if_neg he]
    rcases mm with _ | m
    · exact team_matches_subset df t d
    · simp only
      by_cases hm : m ≤ 0
      · rw [if_pos hm]
        exact team_matches_subset df t d
      · rw [if_neg hm]
        exact fun r hr => team_matches_subset df t d (List.take_subset _ _ hr)

lemma team_stats_counts (df : List Row) (t : String) (d : Option String) (mm : Option Int)
    (hne : ¬ (teamStatsSelection df t d mm).isEmpty = true) :
    getInt (compute_team_stats df t d mm) "wins_count" =
      ((teamStatsSelection df t d mm).countP (fun r => optGt (gfOf t r) (gaOf t r)) : Int) ∧
    getInt (compute_team_stats df t d mm) "draws_count" =
      ((teamStatsSelection df t d mm).countP (fun r => optEq (gfOf t r) (gaOf t r)) : Int) ∧
    getInt (compute_team_stats df t d mm) "losses_count" =
      ((teamStatsSelection df t d mm).countP (fun r => optGt (gaOf t r) (gfOf t r)) : Int) ∧
    getInt (compute_team_stats df t d mm) "wins_others_count" =
      ((teamStatsSelection df t d mm).countP
        (fun r => optGt (gfOf t r) (gaOf t r) && optGe (gfOf t r) 4) : Int) ∧
    getInt (compute_team_stats df t d mm) "draws_others_count" =
      ((teamStatsSelection df t d mm).countP
        (fun r => optEq (gfOf t r) (gaOf t r) && optGe (gfOf t r) 4 && optGe (gaOf t r) 4) : Int) ∧
    getInt (compute_team_stats df t d mm) "losses_others_count" =
      ((teamStatsSelection df t d mm).countP
        (fun r => optGt (gaOf t r) (gfOf t r) && optGe (gaOf t r) 4) : Int) := by
  simp only [compute_team_stats, getInt]
  rw [if_neg hne]
  exact ⟨rfl, rfl, rfl, rfl, rfl, rfl⟩

lemma countP_partition (l : List Row) (p q s : Row → Bool)
    (h : ∀ r ∈ l, (p r).toNat + (q r).toNat + (s r).toNat = 1) :
    l.countP p + l.countP q + l.countP s = l.length := by
  induction l with
  | nil => simp
  | cons x xs ih =>
    have hx := h x (List.mem_cons_self x xs)
    have ih' := ih (fun r hr => h r (List.mem_cons_of_mem _ hr))
    cases hp : p x <;> cases hq : q x <;> cases hs : s x <;>
      simp [List.countP_cons, hp, hq, hs] at hx ⊢ <;> omega

lemma outcome_trichotomy (t : String) (r : Row) (hF : r.FTHG.isSome) (hA : r.FTAG.isSome) :
    (optGt (gfOf t r) (gaOf t r)).toNat + (optEq (gfOf t r) (gaOf t r)).toNat +
      (optGt (gaOf t r) (gfOf t r)).toNat = 1 := by
  obtain ⟨a, ha⟩ := Option.isSome_iff_exists.mp hF
  obtain ⟨b, hb⟩ := Option.isSome_iff_exists.mp hA
  unfold gfOf gaOf optGt optEq
  cases hh : r.home_norm == t <;> simp only [hh, if_true, if_false, Bool.false_eq_true, ha, hb] <;>
    rcases lt_trichotomy a b with hlt | heq | hgt
  · simp [hlt, not_lt.mpr (le_of_lt hlt), hlt.ne, hlt.ne']
  · simp [heq]
  · simp [hgt, not_lt.mpr (le_of_lt hgt), hgt.ne, hgt.ne']
  · simp [hlt, not_lt.mpr (le_of_lt hlt), hlt.ne, hlt.ne']
  · simp [heq]
  · simp [hgt, not_lt.mpr (le_of_lt hgt), hgt.ne, hgt.ne']

lemma filter_keepLastDup (k : Int × String × String × String) (l : List TRow) :
    (keepLastDup l).filter (fun t => decide (mergeKey t.1 = k)) =
      ((l.filter (fun t => decide (mergeKey t.1 = k))).getLast?).toList := by
  induction l with
  | nil => rfl
  | cons x xs ih =>
    by_cases hx : mergeKey x.1 = k
    · by_cases hany : xs.any (fun y => sameMergeKey x y)
      · rw [keepLastDup, if_pos hany, ih]
        obtain ⟨y, hy, hky⟩ := List.any_eq_true.mp hany
        have hyk : mergeKey y.1 = k := (of_decide_eq_true hky).symm.trans hx
        have hmem : y ∈ xs.filter (fun t => decide (mergeKey t.1 = k)) :=
          List.mem_filter.mpr ⟨hy, decide_eq_true hyk⟩
        rw [List.filter_cons, if_pos (decide_eq_true hx)]
        cases hfx : xs.filter (fun t => decide (mergeKey t.1 = k)) with
        | nil => rw [hfx] at hmem; cases hmem
        | cons a as => rw [List.getLast?_cons_cons]
      · rw [keepLastDup, if_neg hany]
        have hnone : xs.filter (fun t => decide (mergeKey t.1 = k)) = [] := by
          rw [List.filter_eq_nil_iff]
          intro y hy hdec
          have hyk : mergeKey y.1 = k := of_decide_eq_true hdec
          have : sameMergeKey x y = true := decide_eq_true (hx.trans hyk.symm)
          exact (List.any_eq_true.not.mp hany) ⟨y, hy, this⟩
        rw [List.filter_cons, if_pos (decide_eq_true hx),
            List.filter_cons, if_pos (decide_eq_true hx), ih, hnone]
        rfl
    · have hdx : (decide (mergeKey x.1 = k)) = false := decide_eq_false hx
      by_cases hany : xs.any (fun y => sameMergeKey x y)
      · rw [keepLastDup, if_pos hany, ih, List.filter_cons, if_neg (by simp [hdx])]
      · rw [keepLastDup, if_neg hany, List.filter_cons, if_neg (by simp [hdx]),
            List.filter_cons, if_neg (by simp [hdx]), ih]

lemma date_of_mergeKey {r : Row} {k : Int × String × String × String}
    (h : mergeKey r = k) : r.date = k.1 := by
  rw [← h]; rfl

lemma pyRound_le_floor_add_one (x : ℝ) : pyRound x ≤ ⌊x⌋ + 1 := by
  unfold pyRound
  split
  · split <;> omega
  · have h : ⌊x + 1/2⌋ ≤ ⌊x + 1⌋ := Int.floor_le_floor (by linarith)
    rw [Int.floor_add_one] at h
    omega

lemma pyRound_eq_of_near (n : ℤ) (x : ℝ) (h1 : (n : ℝ) - 1/2 < x) (h2 : x < (n : ℝ) + 1/2) :
    pyRound x = n := by
  have hfl : ⌊x⌋ = n ∨ ⌊x⌋ = n - 1 := by
    have hub : ⌊x⌋ < n + 1 := Int.floor_lt.mpr (by push_cast; linarith)
    have hlb : n - 1 ≤ ⌊x⌋ := Int.le_floor.mpr (by push_cast; linarith)
    omega
  unfold pyRound
  split
  · rename_i htie
    exfalso
    rcases hfl with h | h <;> rw [h] at htie <;> push_cast at htie <;> linarith
  · refine Int.floor_eq_iff.mpr ⟨?_, ?_⟩ <;> push_cast <;> linarith

lemma clamp_comm (y : ℚ) : max (1/5) (min y 5) = min 5 (max (1/5) y) := by
  rw [max_min_distrib_left]
  norm_num [min_comm]

/-! ## Claim theorems -/

/-- C1: for every base and overlay table merged by `dedupe_merge`, when a
duplicate key is present in both (the overlay holding exactly one row for
it), the merged output contains exactly the overlay's row for that key and
not the base's row. -/
theorem dedupe_merge_overlay_wins
    (base overlay : List Row) (k : Int × String × String × String) (ro : Row)
    (hov : overlay.filter (fun r => decide (mergeKey r = k)) = [ro])
    (_hb : ∃ rb ∈ base, mergeKey rb = k) :
    (dedupe_merge base overlay).filter (fun r => decide (mergeKey r = k)) = [ro] := by
  classical
  unfold dedupe_merge
  set P : TRow → Bool := fun t => decide (mergeKey t.1 = k) with hP
  set combined : List TRow :=
    base.map (fun r => (r, Src.base)) ++ overlay.map (fun r => (r, Src.overlay)) with hcomb
  set sorted := List.insertionSort mergeLe combined with hsorted
  rw [List.filter_map]
  have hfun : ((fun r => decide (mergeKey r = k)) ∘ Prod.fst) = P := rfl
  rw [hfun, filter_keepLastDup]
  have hcombf : combined.filter P =
      ((base.filter (fun r => decide (mergeKey r = k))).map (fun r => (r, Src.base))) ++
        [(ro, Src.overlay)] := by
    rw [hcomb, List.filter_append, List.filter_map, List.filter_map]
    have h1 : (P ∘ fun r => (r, Src.base)) = fun r => decide (mergeKey r = k) := rfl
    have h2 : (P ∘ fun r => (r, Src.overlay)) = fun r => decide (mergeKey r = k) := rfl
    rw [h1, h2, hov]
    rfl
  have hperm : List.Perm (sorted.filter P) (combined.filter P) :=
    (List.perm_insertionSort mergeLe combined).filter P
  have hro_mem : (ro, Src.overlay) ∈ sorted.filter P := by
    rw [hperm.mem_iff, hcombf]
    exact List.mem_append_right _ (List.mem_singleton.mpr rfl)
  have hpw : (sorted.filter P).Pairwise mergeLe :=
    (List.sorted_insertionSort mergeLe combined).sublist (List.filter_sublist _)
  rcases List.eq_nil_or_concat' (sorted.filter P) with hnil | ⟨l', y, hconc⟩
  · rw [hnil] at hro_mem
    cases hro_mem
  · have hy_mem : y ∈ combined.filter P := by
      rw [← hperm.mem_iff, hconc]
      exact List.mem_append_right _ (List.mem_singleton.mpr rfl)
    have hy : y = (ro, Src.overlay) := by
      rw [hcombf] at hy_mem
      rcases List.mem_append.mp hy_mem with hy1 | hy2
      · exfalso
        obtain ⟨rb', hrb', hrbeq⟩ := List.mem_map.mp hy1
        have hyP : P y = true := List.of_mem_filter (hconc ▸ List.mem_concat_self l' y)
        have hro_in_l' : (ro, Src.overlay) ∈ l' := by
          have hm := hro_mem
          rw [hconc] at hm
          rcases List.mem_append.mp hm with h | h
          · exact h
          · exfalso
            have heq : (ro, Src.overlay) = y := List.mem_singleton.mp h
            rw [← hrbeq] at heq
            cases heq
        have hle : mergeLe (ro, Src.overlay) y := by
          have hpa := (List.pairwise_append.mp (hconc ▸ hpw)).2.2
          exact hpa _ hro_in_l' _ (List.mem_singleton.mpr rfl)
        have hrok : mergeKey ro = k := by
          have hd := List.of_mem_filter hro_mem
          exact of_decide_eq_true hd
        have hybk : mergeKey rb' = k := by
          have hd := of_decide_eq_true hyP
          rw [← hrbeq] at hd
          exact hd
        rcases hle with hlt | ⟨_, hsrc⟩
        · rw [← hrbeq] at hlt
          simp only at hlt
          rw [date_of_mergeKey hrok, date_of_mergeKey hybk] at hlt
          exact lt_irrefl _ hlt
        · rw [← hrbeq] at hsrc
          simp [srcRank] at hsrc
      · exact List.mem_singleton.mp hy2
    rw [hconc, hy, List.getLast?_concat]
    rfl

/-- C1 witness: a concrete base row and overlay row sharing the key
(10, "a", "b", "e0"); the merged output keeps only the overlay's row. -/
theorem dedupe_merge_overlay_wins_witness :
    (dedupe_merge [(⟨"E0", 10, "a", "b", "e0", some 1, some 0, none, none⟩ : Row)]
        [(⟨"E0", 10, "a", "b", "e0", some 3, some 2, none, none⟩ : Row)]).filter
      (fun r => decide (mergeKey r = (10, "a", "b", "e0"))) =
      [(⟨"E0", 10, "a", "b", "e0", some 3, some 2, none, none⟩ : Row)] :=
  dedupe_merge_overlay_wins _ _ (10, "a", "b", "e0")
    (⟨"E0", 10, "a", "b", "e0", some 3, some 2, none, none⟩ : Row)
    (by decide) (by decide)

/-- C2 counterexample: with both goal averages available (1.5 each), a
league average of 2.5 and an H2H average that is NaN (an H2H selection
whose rows all have blank goals — a state the ingest admits), the code's
λ is 0.2 (score 0): the NaN term is not substituted by (g_home+g_away) or
by the league average as the claim states; under the claimed substitution
λ would be 2.8. -/
theorem insights_score_nan_counterexample :
    blendLambda (.vnum (3/2)) (.vnum (3/2)) (.vnum (5/2)) .vnan = some (1/5) ∧
    specLambda (3/2) (3/2) (some (5/2)) none = 14/5 ∧
    blendLambda (.vnum (3/2)) (.vnum (3/2)) (.vnum (5/2)) .vnan ≠
      some (specLambda (3/2) (3/2) (some (5/2)) none) := by
  have h1 : blendLambda (.vnum (3/2)) (.vnum (3/2)) (.vnum (5/2)) .vnan = some (1/5) := by
    simp [blendLambda, clampGoals, PyVal.toFloat, pyMin, pyMax, optAdd]
  have h2 : specLambda (3/2) (3/2) (some (5/2)) none = 14/5 := by
    norm_num [specLambda, min_def, max_def]
  refine ⟨h1, h2, ?_⟩
  rw [h1, h2]
  norm_num

/-- C2 amended: the scoreline heuristic.  When both (clamped) goal
averages are available and the league/H2H averages are each absent
(`None`) or finite, the code's λ equals the spec's blend formula with an
absent league/H2H term substituted by the clamped (g_home+g_away), H2H
falling back to the league average first.  A NaN league or H2H average,
however, is not substituted: it poisons the blend and Python's
`max(0.2, min(lam, 5.0))` collapses the NaN λ to 0.2 (interest 0).  The
interest score at λ = 0.2 is 0 and at λ = 5.0 is 99; when both goal
averages are unavailable the blend falls through to the league average,
and with no league average either, no score is produced (never an
exception — the model is a total function). -/
theorem insights_score_heuristic :
    (∀ (gh ga : ℚ) (la ha : Option ℚ),
      blendLambda (.vnum gh) (.vnum ga) (pyOfOpt la) (pyOfOpt ha) =
        some (specLambda gh ga la ha)) ∧
    (∀ (gh ga : ℚ) (la : PyVal),
      blendLambda (.vnum gh) (.vnum ga) la .vnan = some (1/5)) ∧
    (∀ (gh ga : ℚ) (ha : PyVal),
      blendLambda (.vnum gh) (.vnum ga) .vnan ha = some (1/5)) ∧
    scoreFromLambda (1/5) = 0 ∧
    scoreFromLambda 5 = 99 ∧
    (∀ (l : ℚ) (ha : Option ℚ),
      blendLambda .vnone .vnone (.vnum l) (pyOfOpt ha) =
        some (max (1/5) (min ((8/10) * l + (2/10) * (ha.getD l)) 5))) ∧
    (∀ ha : PyVal, blendLambda .vnone .vnone .vnone ha = none) := by
  refine ⟨?_, ?_, ?_, ?_, ?_, ?_, ?_⟩
  · intro gh ga la ha
    cases la <;> cases ha <;>
      simp only [blendLambda, clampGoals, specLambda, pyOfOpt, PyVal.toFloat, pyMin, pyMax,
        optAdd, Option.map, Option.or, Option.getD, ne_eq, reduceCtorEq, not_false_eq_true,
        not_true, reduceIte, if_true, if_false, ite_true, ite_false] <;>
      rw [clamp_comm]
  · intro gh ga la
    cases la <;>
      simp [blendLambda, clampGoals, PyVal.toFloat, pyMin, pyMax, optAdd]
  · intro gh ga ha
    cases ha <;>
      simp [blendLambda, clampGoals, PyVal.toFloat, pyMin, pyMax, optAdd]
  · unfold scoreFromLambda
    have hexp : (4/5 : ℝ) ≤ Real.exp (-((1/5 : ℚ) : ℝ)) := by
      have h := Real.add_one_le_exp (-((1/5 : ℚ) : ℝ))
      have hc : -((1/5 : ℚ) : ℝ) = -(1/5 : ℝ) := by norm_num
      rw [hc] at h ⊢
      linarith
    have hfl : ⌊(100 : ℝ) - 200 * Real.exp (-((1/5 : ℚ) : ℝ))⌋ ≤ -60 := by
      have h := Int.floor_le_floor
        (show (100 : ℝ) - 200 * Real.exp (-((1/5 : ℚ) : ℝ)) ≤ -60 by linarith)
      rw [show ((-60 : ℝ)) = ((-60 : ℤ) : ℝ) by norm_num, Int.floor_intCast] at h
      exact h
    have hp := pyRound_le_floor_add_one ((100 : ℝ) - 200 * Real.exp (-((1/5 : ℚ) : ℝ)))
    omega
  · unfold scoreFromLambda
    have e1 : (2.7182818283 : ℝ) < Real.exp 1 := Real.exp_one_gt_d9
    have e2 : Real.exp 1 < 2.7182818286 := Real.exp_one_lt_d9
    have h5 : Real.exp 5 = Real.exp 1 ^ 5 := by
      rw [← Real.exp_nat_mul]
      norm_num
    have hl : (133.4 : ℝ) < Real.exp 5 := by
      rw [h5]
      calc (133.4 : ℝ) < 2.7182818283 ^ 5 := by norm_num
        _ < Real.exp 1 ^ 5 := pow_lt_pow_left₀ e1 (by norm_num) (by norm_num)
    have hu : Real.exp 5 < 400 := by
      rw [h5]
      calc Real.exp 1 ^ 5 < 2.7182818286 ^ 5 :=
          pow_lt_pow_left₀ e2 (le_of_lt (Real.exp_pos 1)) (by norm_num)
        _ < 400 := by norm_num
    have hcast : -((5 : ℚ) : ℝ) = -5 := by norm_num
    rw [hcast, Real.exp_neg]
    have hinv1 : (Real.exp 5)⁻¹ < 1 / 133.4 := by
      rw [inv_lt_comm₀ (Real.exp_pos 5) (by norm_num), one_div, inv_inv]
      exact hl
    have hinv2 : (1 : ℝ) / 400 < (Real.exp 5)⁻¹ := by
      rw [div_lt_iff₀ (by norm_num), inv_mul_eq_div, lt_div_iff₀ (Real.exp_pos 5)]
      linarith
    have hr : pyRound ((100 : ℝ) - 200 * (Real.exp 5)⁻¹) = 99 := by
      apply pyRound_eq_of_near
      · push_cast
        nlinarith
      · push_cast
        nlinarith
    rw [hr]
    decide
  · intro l ha
    cases ha <;>
      simp only [blendLambda, clampGoals, pyOfOpt, PyVal.toFloat, pyMin, pyMax, optAdd,
        Option.map, Option.getD, ne_eq, reduceCtorEq, not_false_eq_true,
        not_true, reduceIte, if_true, if_false, ite_true, ite_false] <;>
      norm_num <;> ring_nf
  · intro ha
    cases ha <;> rfl

/-- C3 counterexample: `compute_team_stats` invoked without an explicit
window (`max_matches` defaulting to `None`) on an 81-match dataset keeps
all 81 matches, not the claimed default window of 80. -/
theorem team_stats_default_window_counterexample :
    getInt (compute_team_stats df81 "alpha" none none) "n" = 81 ∧
    getInt (compute_team_stats df81 "alpha" none none) "n" ≠ 80 := by
  refine ⟨?_, ?_⟩ <;> decide

/-- C3 amended: invoked without an explicit window, `compute_team_stats`
applies no limit at all — `n` is the full matching row count.  The 80
default sits only on the helper `_last_n` (`LAST_N_DEFAULT`) and is dead:
`compute_team_stats` always forwards its own `max_matches` (default
`None`, the no-limit sentinel). -/
theorem team_stats_default_window_no_limit (df : List Row) (t : String) (d : Option String) :
    getInt (compute_team_stats df t d none) "n" = ((_team_matches df t d).length : Int) := by
  rw [getInt_n]
  unfold teamStatsSelection
  rw [_last_n_none]

/-- C4 counterexample: the empty Head-to-Head record carries only the key
`n`, while a non-empty result also carries `zero_zero_rate`,
`over_0_5_rate` and `avg_total_goals` — the key sets differ. -/
theorem h2h_empty_record_keys_counterexample :
    dictKeys (compute_h2h [] "a" "b" none) = ["n"] ∧
    dictKeys (compute_h2h [(⟨"E0", 0, "a", "b", "e0", some 2, some 1, none, none⟩ : Row)]
      "a" "b" none) = ["n", "zero_zero_rate", "over_0_5_rate", "avg_total_goals"] ∧
    dictKeys (compute_h2h [] "a" "b" none) ≠
      dictKeys (compute_h2h [(⟨"E0", 0, "a", "b", "e0", some 2, some 1, none, none⟩ : Row)]
        "a" "b" none) := by
  refine ⟨?_, ?_, ?_⟩ <;> decide

/-- C4 amended: on zero matching rows, `compute_team_stats` returns a
fixed default record whose key set is a strict subset of the non-empty key
set (the rate/conditional keys are omitted), and `compute_h2h` returns
only `n`. -/
theorem analytics_empty_record_keys :
    (∀ (df : List Row) (t : String) (d : Option String) (mm : Option Int),
      (teamStatsSelection df t d mm).isEmpty = true →
        dictKeys (compute_team_stats df t d mm) = teamStatsEmptyKeys) ∧
    (∀ (df : List Row) (t : String) (d : Option String) (mm : Option Int),
      ¬ (teamStatsSelection df t d mm).isEmpty = true →
        dictKeys (compute_team_stats df t d mm) = teamStatsFullKeys) ∧
    (∀ k ∈ teamStatsEmptyKeys, k ∈ teamStatsFullKeys) ∧
    (∀ (df : List Row) (a b : String) (mm : Option Int),
      (h2hSelection df a b mm).isEmpty = true →
        dictKeys (compute_h2h df a b mm) = ["n"]) ∧
    (∀ (df : List Row) (a b : String) (mm : Option Int),
      ¬ (h2hSelection df a b mm).isEmpty = true →
        dictKeys (compute_h2h df a b mm) =
          ["n", "zero_zero_rate", "over_0_5_rate", "avg_total_goals"]) := by
  refine ⟨?_, ?_, ?_, ?_, ?_⟩
  · intro df t d mm h
    simp only [compute_team_stats, dictKeys]
    rw [if_pos h]
    rfl
  · intro df t d mm h
    simp only [compute_team_stats, dictKeys]
    rw [if_neg h]
    rfl
  · decide
  · intro df a b mm h
    simp only [compute_h2h, dictKeys]
    rw [if_pos h]
    rfl
  · intro df a b mm h
    simp only [compute_h2h, dictKeys]
    rw [if_neg h]
    rfl

/-- C4 witness: the empty dataset instance of the amended statement. -/
theorem analytics_empty_record_keys_witness :
    dictKeys (compute_h2h [] "x" "y" none) = ["n"] :=
  analytics_empty_record_keys.2.2.2.1 [] "x" "y" none (by decide)

/-- C5 counterexample: "Man Utd" canonicalizes (via the alias table) to
"man united", while "Manchester United" canonicalizes to
"manchester united" — they do not share a canonical key. -/
theorem manUtd_norm_counterexample :
    normalize_team_name "Man Utd" ≠ normalize_team_name "Manchester United" ∧
    normalize_team_name "Man Utd" = "man united" ∧
    normalize_team_name "Manchester United" = "manchester united" := by
  refine ⟨?_, ?_, ?_⟩ <;> decide

/-- C5 amended: raw "Man Utd" and raw "Man United" canonicalize to the
same key. -/
theorem manUtd_manUnited_same_key :
    normalize_team_name "Man Utd" = normalize_team_name "Man United" := by decide

/-- C6 counterexample: one materialized row with a NaN goals cell gives a
non-empty Team Statistics result with n = 1 but
wins + draws + losses = 0. -/
theorem team_stats_partition_counterexample :
    getInt (compute_team_stats [rowNaNGoals] "alpha" none none) "n" = 1 ∧
    getInt (compute_team_stats [rowNaNGoals] "alpha" none none) "wins_count" +
      getInt (compute_team_stats [rowNaNGoals] "alpha" none none) "draws_count" +
      getInt (compute_team_stats [rowNaNGoals] "alpha" none none) "losses_count" = 0 := by
  refine ⟨?_, ?_⟩ <;> decide

/-- C6 amended: over datasets whose rows all carry both full-time goals,
every non-empty Team Statistics result satisfies
wins + draws + losses = n, and each "others" sub-bucket (win-other:
goals-for ≥ 4; loss-other: goals-against ≥ 4; draw-other: both ≥ 4, as in
`compute_team_stats`'s masks) counts at most its parent bucket. -/
theorem team_stats_outcome_partition (df : List Row) (t : String) (d : Option String)
    (mm : Option Int)
    (hgoals : ∀ r ∈ df, r.FTHG.isSome ∧ r.FTAG.isSome)
    (hne : ¬ (teamStatsSelection df t d mm).isEmpty = true) :
    getInt (compute_team_stats df t d mm) "wins_count" +
      getInt (compute_team_stats df t d mm) "draws_count" +
      getInt (compute_team_stats df t d mm) "losses_count" =
      getInt (compute_team_stats df t d mm) "n" ∧
    getInt (compute_team_stats df t d mm) "wins_others_count" ≤
      getInt (compute_team_stats df t d mm) "wins_count" ∧
    getInt (compute_team_stats df t d mm) "draws_others_count" ≤
      getInt (compute_team_stats df t d mm) "draws_count" ∧
    getInt (compute_team_stats df t d mm) "losses_others_count" ≤
      getInt (compute_team_stats df t d mm) "losses_count" := by
  obtain ⟨hw, hd, hl, hwo, hdo, hlo⟩ := team_stats_counts df t d mm hne
  rw [hw, hd, hl, hwo, hdo, hlo, getInt_n]
  refine ⟨?_, ?_, ?_, ?_⟩
  · have h := countP_partition (teamStatsSelection df t d mm)
      (fun r => optGt (gfOf t r) (gaOf t r))
      (fun r => optEq (gfOf t r) (gaOf t r))
      (fun r => optGt (gaOf t r) (gfOf t r))
      (fun r hr => by
        obtain ⟨hF, hA⟩ := hgoals r (teamStatsSelection_subset df t d mm hr)
        exact outcome_trichotomy t r hF hA)
    exact_mod_cast h
  · exact_mod_cast List.countP_mono_left
      (fun r _ h => by
        rw [Bool.and_eq_true] at h
        exact h.1)
  · exact_mod_cast List.countP_mono_left
      (fun r _ h => by
        rw [Bool.and_eq_true, Bool.and_eq_true] at h
        exact h.1.1)
  · exact_mod_cast List.countP_mono_left
      (fun r _ h => by
        rw [Bool.and_eq_true] at h
        exact h.1)

/-- C6 witness: a one-row dataset with both goals present. -/
theorem team_stats_outcome_partition_witness :
    (getInt (compute_team_stats [(⟨"E0", 0, "alpha", "beta", "e0", some 2, some 1, none, none⟩ : Row)] "alpha" none none) "wins_count" +
      getInt (compute_team_stats [(⟨"E0", 0, "alpha", "beta", "e0", some 2, some 1, none, none⟩ : Row)] "alpha" none none) "draws_count" +
      getInt (compute_team_stats [(⟨"E0", 0, "alpha", "beta", "e0", some 2, some 1, none, none⟩ : Row)] "alpha" none none) "losses_count" =
      getInt (compute_team_stats [(⟨"E0", 0, "alpha", "beta", "e0", some 2, some 1, none, none⟩ : Row)] "alpha" none none) "n") ∧
    getInt (compute_team_stats [(⟨"E0", 0, "alpha", "beta", "e0", some 2, some 1, none, none⟩ : Row)] "alpha" none none) "wins_others_count" ≤
      getInt (compute_team_stats [(⟨"E0", 0, "alpha", "beta", "e0", some 2, some 1, none, none⟩ : Row)] "alpha" none none) "wins_count" ∧
    getInt (compute_team_stats [(⟨"E0", 0, "alpha", "beta", "e0", some 2, some 1, none, none⟩ : Row)] "alpha" none none) "draws_others_count" ≤
      getInt (compute_team_stats [(⟨"E0", 0, "alpha", "beta", "e0", some 2, some 1, none, none⟩ : Row)] "alpha" none none) "draws_count" ∧
    getInt (compute_team_stats [(⟨"E0", 0, "alpha", "beta", "e0", some 2, some 1, none, none⟩ : Row)] "alpha" none none) "losses_others_count" ≤
      getInt (compute_team_stats [(⟨"E0", 0, "alpha", "beta", "e0", some 2, some 1, none, none⟩ : Row)] "alpha" none none) "losses_count" :=
  team_stats_outcome_partition _ "alpha" none none (by decide) (by decide)

/-- C7: `compute_h2h` is order-insensitive in its two team keys,
field-for-field. -/
theorem compute_h2h_symm (df : List Row) (a b : String) (mm : Option Int) :
    compute_h2h df a b mm = compute_h2h df b a mm := by
  have hpair : _pair_rows df a b = _pair_rows df b a := by
    unfold _pair_rows
    exact List.filter_congr (fun r _ => Bool.or_comm _ _)
  simp only [compute_h2h, h2hSelection]
  rw [hpair]

/-- C8: on any store and any consistent cache state, `load_dataset` (a
total function — it never raises) returns an explicit empty dataset for a
missing or unparseable store, the cached snapshot when the modification
time is unchanged, and the freshly parsed snapshot (replacing the cache)
when it changed. -/
theorem load_dataset_cache_behavior (store : Store) (cache : DatasetCache)
    (hcons : CacheConsistent store cache) :
    (store = none → (load_dataset store cache).1 = []) ∧
    (∀ mt, store = some (mt, none) → (load_dataset store cache).1 = []) ∧
    (∀ mt content df, store = some (mt, content) → cache.df = some df →
      cache.mtime = some mt →
      (load_dataset store cache).1 = df ∧ (load_dataset store cache).2 = cache) ∧
    (∀ mt fresh, store = some (mt, some fresh) → cache.mtime ≠ some mt →
      (load_dataset store cache).1 = fresh ∧
      (load_dataset store cache).2 = ⟨some fresh, some mt⟩) := by
  refine ⟨?_, ?_, ?_, ?_⟩
  · intro h
    rw [h]
    rfl
  · intro mt h
    cases hdf : cache.df with
    | none => simp [load_dataset, h, hdf]
    | some df =>
      by_cases hmt : cache.mtime = some mt
      · exact absurd (hcons df mt hdf hmt none h) (by simp)
      · simp [load_dataset, h, hdf, hmt]
  · intro mt content df h hdf hmt
    simp [load_dataset, h, hdf, hmt]
  · intro mt fresh h hmt
    cases hdf : cache.df with
    | none => simp [load_dataset, h, hdf]
    | some df => simp [load_dataset, h, hdf, hmt]

/-- C8 witness: a fresh parseable store against an empty (trivially
consistent) cache yields the parsed frame. -/
theorem load_dataset_cache_behavior_witness :
    (load_dataset (some (5, some [(⟨"E0", 0, "a", "b", "e0", some 2, some 1, none, none⟩ : Row)]))
        ⟨none, none⟩).1 = [(⟨"E0", 0, "a", "b", "e0", some 2, some 1, none, none⟩ : Row)] :=
  ((load_dataset_cache_behavior
      (some (5, some [(⟨"E0", 0, "a", "b", "e0", some 2, some 1, none, none⟩ : Row)]))
      ⟨none, none⟩ (by intro df mt h; cases h)).2.2.2 5 _ rfl (by simp)).1

/-- C9: for positive windows N ≤ M, the Team Statistics row selection for
window N is a prefix of the selection for window M (same filter, same
dedup, same descending-date sort). -/
theorem team_stats_window_monotone (df : List Row) (t : String) (d : Option String)
    (n m : Int) (hn : 0 < n) (hnm : n ≤ m) :
    ∃ tail, teamStatsSelection df t d (some m) = teamStatsSelection df t d (some n) ++ tail := by
  unfold teamStatsSelection
  rw [_last_n_pos _ _ hn, _last_n_pos _ _ (by omega)]
  refine ⟨((_team_matches df t d).take m.toNat).drop n.toNat, ?_⟩
  conv_lhs => rw [← List.take_append_drop n.toNat ((_team_matches df t d).take m.toNat)]
  congr 1
  rw [List.take_take]
  congr 1
  omega

/-- C9 witness: windows 1 ≤ 2 on a three-row dataset. -/
theorem team_stats_window_monotone_witness :
    ∃ tail,
      teamStatsSelection
        [(⟨"E0", 0, "alpha", "beta", "e0", some 1, some 0, none, none⟩ : Row),
         (⟨"E0", 1, "alpha", "beta", "e0", some 2, some 0, none, none⟩ : Row),
         (⟨"E0", 2, "alpha", "beta", "e0", some 3, some 0, none, none⟩ : Row)]
        "alpha" none (some 2) =
      teamStatsSelection
        [(⟨"E0", 0, "alpha", "beta", "e0", some 1, some 0, none, none⟩ : Row),
         (⟨"E0", 1, "alpha", "beta", "e0", some 2, some 0, none, none⟩ : Row),
         (⟨"E0", 2, "alpha", "beta", "e0", some 3, some 0, none, none⟩ : Row)]
        "alpha" none (some 1) ++ tail :=
  team_stats_window_monotone _ "alpha" none 1 2 (by decide) (by decide)

/-- C10: a `None` or non-positive `max_matches` is "no limit": both
`compute_team_stats` and `compute_h2h` then behave exactly as with no
window, and `compute_h2h` truncates only for an int strictly greater
than 0. -/
theorem window_nonpositive_no_limit :
    (∀ (df : List Row) (t : String) (d : Option String) (n : Int), n ≤ 0 →
      compute_team_stats df t d (some n) = compute_team_stats df t d none) ∧
    (∀ (df : List Row) (a b : String) (n : Int), n ≤ 0 →
      compute_h2h df a b (some n) = compute_h2h df a b none) := by
  constructor
  · intro df t d n hn
    have hsel : teamStatsSelection df t d (some n) = teamStatsSelection df t d none := by
      unfold teamStatsSelection
      rw [_last_n_nonpos _ _ hn, _last_n_none]
    simp only [compute_team_stats]
    rw [hsel]
  · intro df a b n hn
    have hsel : h2hSelection df a b (some n) = h2hSelection df a b none := by
      simp only [h2hSelection]
      rw [if_neg (by omega)]
    simp only [compute_h2h]
    rw [hsel]

/-- C10 witness: windows −3 and 0 on a one-row dataset. -/
theorem window_nonpositive_no_limit_witness :
    compute_team_stats [(⟨"E0", 0, "alpha", "beta", "e0", some 2, some 1, none, none⟩ : Row)]
        "alpha" none (some (-3)) =
      compute_team_stats [(⟨"E0", 0, "alpha", "beta", "e0", some 2, some 1, none, none⟩ : Row)]
        "alpha" none none ∧
    compute_h2h [(⟨"E0", 0, "alpha", "beta", "e0", some 2, some 1, none, none⟩ : Row)]
        "alpha" "beta" (some 0) =
      compute_h2h [(⟨"E0", 0, "alpha", "beta", "e0", some 2, some 1, none, none⟩ : Row)]
        "alpha" "beta" none :=
  ⟨window_nonpositive_no_limit.1 _ "alpha" none (-3) (by decide),
   window_nonpositive_no_limit.2 _ "alpha" "beta" 0 (by decide)⟩

end MatchScreener
